import Mathlib

/-!
Shallow embedding of the batch-resumable translation pipeline of
`src/app.py` (Survey Question Translator MVP).

The embedding covers:
* the confidence-normalization rule inside `process_question`;
* `process_question` itself, with its test-mode branch, its inner
  raising body (modelled as `Except`) and its outer catch-all handler;
* the chunk step at the core of `process_excel_file_with_timeout`
  (batch window, per-item budget check, per-item try/except, the
  timeout back-fill of `Pending (timeout)` rows, cursor advance) and
  the validation that precedes the very first chunk (`start_batch`);
* the `auto_continue_batch` driver loop, fuel-indexed;
* the `/progress` SSE generator loop, with time modelled in tenths of
  a second (each loop iteration pays the `time.sleep(0.2)`).

External effects (HTTP calls, wall-clock readings) are supplied by
explicit environments so every definition is executable.
-/

/-- Raw confidence value as found in the parsed language-detection JSON:
Python distinguishes `float` from `int` via `isinstance`, so the model
keeps the two shapes apart.  Python floats are modelled as rationals. -/
inductive RawConf where
  | rfloat (q : ℚ)
  | rint (n : ℤ)
deriving Repr, DecidableEq

/-- Python `int(x)` on a number: truncation toward zero. -/
def ratTrunc (q : ℚ) : ℤ :=
  if 0 ≤ q then ⌊q⌋ else ⌈q⌉

/-- Confidence normalization from `process_question`
(`src/app.py` lines 762-772): a `float` value `<= 1.0` is scaled by 100
and truncated with `int(...)`; any other value goes through `int(...)`
directly (identity on `int` inputs).  No clamping is performed. -/
def normalize_confidence : RawConf → ℤ
  | .rfloat q => if q ≤ 1 then ratTrunc (q * 100) else ratTrunc q
  | .rint n => n

/-- One per-question result dictionary, as built by `process_question`
and by the schedulers.  `row_number` is `none` when the dictionary has
no `row_number` key. -/
structure QResult where
  question_number : Nat
  row_number : Option Nat
  original_question : String
  detected_language : String
  confidence : ℤ
  english_translation : String
deriving Repr, DecidableEq, Inhabited

/-- Parsed language-detection JSON body: the `language` and
`confidence` keys, each possibly absent (Python `dict.get` defaults). -/
structure LangInfo where
  language : Option String
  confidence : Option RawConf
deriving Repr, DecidableEq

/-- Outcome of the language-detection HTTP call.  `ok none` is a 200
response whose body fails JSON/key extraction (the
`(KeyError, json.JSONDecodeError)` handler), which triggers the
`{English, 90}` fallback rather than an error. -/
inductive LangResp where
  | netError (msg : String)
  | httpError (code : Nat) (body : String)
  | ok (parsed : Option LangInfo)
deriving Repr, DecidableEq

/-- Outcome of the translation HTTP call. -/
inductive TransResp where
  | netError (msg : String)
  | httpError (code : Nat) (body : String)
  | ok (content : String)
deriving Repr, DecidableEq

/-- Environment for one `process_question` call: configuration plus the
outcomes of its two outbound calls.  `api_key = none` models a falsy
`DEEPSEEK_API_KEY`. -/
structure PQEnv where
  test_mode : Bool
  api_key : Option String
  lang_call : LangResp
  trans_call : TransResp
deriving Repr, DecidableEq

/-- The `row_number` key is only attached when the given value is
truthy: Python truthiness drops both `None` and `0`. -/
def rowAttach (rn : Option Nat) : Option Nat :=
  match rn with
  | some r => if r = 0 then none else some r
  | none => none

/-- The result dictionary built by the outer `except` of
`process_question`. -/
def mkErrorResult (q : String) (qn : Nat) (rn : Option Nat) (msg : String) : QResult :=
  { question_number := qn
    row_number := rn
    original_question := q
    detected_language := "Error"
    confidence := 0
    english_translation := "Translation error: " ++ msg }

/-- Language/confidence pair extracted from the detection step:
parse failure takes the `{"language": "English", "confidence": 90}`
fallback; a parsed body goes through `dict.get` defaults and the
confidence normalization. -/
def langOutcome (parsed : Option LangInfo) : String × ℤ :=
  match parsed with
  | none => ("English", 90)
  | some li =>
      (li.language.getD "Unknown",
       match li.confidence with
       | some raw => normalize_confidence raw
       | none => 0)

/-- Body of the `try` block of `process_question` (`src/app.py`
lines 668-871).  A Python `raise` that the outer handler would catch is
an `Except.error` carrying the exception message. -/
def process_question_inner (env : PQEnv) (q : String) (qn : Nat) (rn : Option Nat) :
    Except String QResult :=
  if env.test_mode then
    Except.ok
      { question_number := qn
        row_number := none
        original_question := q
        detected_language := "English"
        confidence := 95
        english_translation := "[TEST MODE] " ++ q }
  else
    match env.api_key with
    | none => Except.error "DeepSeek API key not configured"
    | some _ =>
        match env.lang_call with
        | .netError m => Except.error ("Network error during language detection: " ++ m)
        | .httpError c b =>
            Except.error ("Language detection API error: " ++ toString c ++ " - " ++ b)
        | .ok parsed =>
            let lang := langOutcome parsed
            match env.trans_call with
            | .netError m => Except.error ("Network error during translation: " ++ m)
            | .httpError c b =>
                Except.error ("Translation API error: " ++ toString c ++ " - " ++ b)
            | .ok content =>
                Except.ok
                  { question_number := qn
                    row_number := rowAttach rn
                    original_question := q
                    detected_language := lang.1
                    confidence := lang.2
                    english_translation := content.trim }

/-- `process_question` (`src/app.py` lines 663-887): the whole body sits
in a `try` whose `except Exception` converts any failure into an
`Error` result dictionary, so the function always returns a result. -/
def process_question (env : PQEnv) (q : String) (qn : Nat) (rn : Option Nat) : QResult :=
  match process_question_inner env q qn rn with
  | .ok r => r
  | .error e => mkErrorResult q qn (rowAttach rn) e

/-! ## The chunk step of `process_excel_file_with_timeout` -/

/-- `batch_size = 3  # Process 3 questions per batch` (src/app.py line 460). -/
def chunk_size : Nat := 3

/-- Row-number lookup (`src/app.py` lines 492 and 507): the index of the
first row of the first sheet column whose value equals the question
text, 1-based, falling back to `fallback` when no row matches.  The
column is the raw first column of the sheet; `none` entries are the
NaN cells that `dropna` later removes. -/
def findRow (col : List (Option String)) (q : String) (fallback : Nat) : Nat :=
  match col.findIdx? (fun x => x == some q) with
  | some i => i + 1
  | none => fallback

/-- The `Pending (timeout)` dictionary appended for a skipped item at
global index `g` (`src/app.py` lines 495-502). -/
def mkPendingR (col : List (Option String)) (pending : List String) (g : Nat) : QResult :=
  { question_number := g + 1
    row_number := some (findRow col (pending.getD g "") (g + 1))
    original_question := pending.getD g ""
    detected_language := "Pending (timeout)"
    confidence := 0
    english_translation := "Processing stopped due to timeout" }

/-- Back-fill produced by the budget-exhausted branch: one
`Pending (timeout)` result for each window slot `start, start+1, ...`
(`count` of them), at global indices `cursor + start + t`. -/
def pendingFill (col : List (Option String)) (pending : List String)
    (cursor start count : Nat) : List QResult :=
  (List.range count).map (fun t => mkPendingR col pending (cursor + start + t))

/-- The `Error` dictionary appended by the per-item `except` handler
of the scheduler (`src/app.py` lines 551-558). -/
def mkSchedError (q : String) (qn row : Nat) (msg : String) : QResult :=
  { question_number := qn
    row_number := some row
    original_question := q
    detected_language := "Error"
    confidence := 0
    english_translation := "Processing error: " ++ msg }

/-- Environment of one chunk step: `tcheck i` is the value of
`time.time() - start_time > 25` observed just before window item `i`
is started, and `proc` is the call to `process_question` (which may
raise, hence `Except`). -/
structure StepEnv where
  tcheck : Nat → Bool
  proc : String → Nat → Nat → Except String QResult

/-- One item of the chunk body (`src/app.py` lines 505-566): row
lookup, call `process_question(question, global_index+1, row_number)`,
and on an exception append the `Error` dictionary of the scheduler
and continue. -/
def procResult (env : StepEnv) (col : List (Option String)) (cursor i : Nat)
    (q : String) : QResult :=
  let g := cursor + i
  let row := findRow col q (g + 1)
  match env.proc q (g + 1) row with
  | .ok r => r
  | .error e => mkSchedError q (g + 1) row e

/-- The `for i, question in enumerate(current_batch_questions)` loop
(`src/app.py` lines 485-566).  `window` is the not-yet-visited suffix
of the chunk window and `i` its first window index.  The budget check
runs before each item; once it fires, every remaining window slot is
appended as `Pending (timeout)` and the loop breaks. -/
def stepLoop (env : StepEnv) (col : List (Option String)) (pending : List String)
    (cursor : Nat) : List String → Nat → List QResult
  | [], _ => []
  | q :: rest, i =>
      if env.tcheck i then
        pendingFill col pending cursor i (rest.length + 1)
      else
        procResult env col cursor i q :: stepLoop env col pending cursor rest (i + 1)

/-- The process-wide batch state: `app.pending_questions`,
`app.processed_results`, `app.current_batch_start`. -/
structure BatchState where
  pending : List String
  results : List QResult
  cursorStart : Nat
deriving Repr, DecidableEq

/-- `app.pending_questions[current_batch_start:batch_end]` where
`batch_end = min(current_batch_start + batch_size, total_questions)`. -/
def chunkWindow (st : BatchState) : List String :=
  (st.pending.drop st.cursorStart).take chunk_size

/-- The `batch_results` list built by one chunk step over the current
window. -/
def chunkAppended (env : StepEnv) (col : List (Option String)) (st : BatchState) :
    List QResult :=
  stepLoop env col st.pending st.cursorStart (chunkWindow st) 0

/-- One chunk step of `process_excel_file_with_timeout` on a live batch
(`src/app.py` lines 459-572): process the current window, extend
`processed_results`, and advance `current_batch_start` to `batch_end`. -/
def process_excel_file_chunk (env : StepEnv) (col : List (Option String))
    (st : BatchState) : BatchState :=
  let total := st.pending.length
  let batch_end := min (st.cursorStart + chunk_size) total
  { pending := st.pending
    results := st.results ++ chunkAppended env col st
    cursorStart := batch_end }

/-- Default `MAX_QUESTIONS` (`src/app.py` line 33). -/
def MAX_QUESTIONS : Nat := 1000

/-- Validation preceding the very first chunk (`src/app.py`
lines 440-457): extract the first column (`dropna`), reject an empty
question list, reject more than `maxQ` questions; otherwise install the
fresh batch state with cursor 0 and no results. -/
def start_batch (col : List (Option String)) (maxQ : Nat) : Except String BatchState :=
  let questions := col.filterMap id
  if questions.isEmpty then
    Except.error "No questions found in the Excel file"
  else if maxQ < questions.length then
    Except.error ("Maximum " ++ toString maxQ ++ " questions allowed per file")
  else
    Except.ok { pending := questions, results := [], cursorStart := 0 }

/-! ## The `auto_continue_batch` driver (`src/app.py` lines 185-352) -/

/-- State of the auto-continue loop.  `localCursor` is the local
variable `current_batch_start` of the function (read once at line 198),
`appCursor` is the attribute `app.current_batch_start` (written at
line 303), and `done` records that the `while` loop has exited. -/
structure AutoState where
  processed : List QResult
  appCursor : Nat
  localCursor : Nat
  batchCount : Nat
  done : Bool
deriving Repr, DecidableEq

/-- The `Pending (timeout)` dictionary of the auto loop
(`src/app.py` lines 227-234): here `row_number` is just the global
index + 1, with no sheet lookup. -/
def autoPendingR (pending : List String) (g : Nat) : QResult :=
  { question_number := g + 1
    row_number := some (g + 1)
    original_question := pending.getD g ""
    detected_language := "Pending (timeout)"
    confidence := 0
    english_translation := "Processing stopped due to timeout" }

/-- One item of the auto loop body (`src/app.py` lines 237-289):
`row_number = global_question_index + 1`, call `process_question`, and
the per-item `except` handler appends an `Error` dictionary. -/
def autoProcResult (env : StepEnv) (cursor i : Nat) (q : String) : QResult :=
  let g := cursor + i
  match env.proc q (g + 1) (g + 1) with
  | .ok r => r
  | .error e => mkSchedError q (g + 1) (g + 1) e

/-- The inner `for` loop of one auto-batch iteration
(`src/app.py` lines 221-297), same break-and-back-fill shape as
`stepLoop` but with the auto row numbering. -/
def autoLoopGo (env : StepEnv) (pending : List String) (cursor : Nat) :
    List String → Nat → List QResult
  | [], _ => []
  | q :: rest, i =>
      if env.tcheck i then
        (List.range (rest.length + 1)).map (fun t => autoPendingR pending (cursor + i + t))
      else
        autoProcResult env cursor i q :: autoLoopGo env pending cursor rest (i + 1)

/-- One iteration of the `while current_batch_start < total_questions`
body (`src/app.py` lines 209-335).  The source loop never reassigns its
local `current_batch_start`; only `app.current_batch_start` is updated
at line 303, so `localCursor` is carried through unchanged.
`start_time` is taken afresh at line 219, so `env.tcheck` describes the
per-iteration budget check.  The break at line 332 fires when
`batch_end >= total_questions`. -/
def autoBody (env : StepEnv) (pending : List String) (st : AutoState) : AutoState :=
  let total := pending.length
  let batch_end := min (st.localCursor + chunk_size) total
  let window := (pending.drop st.localCursor).take chunk_size
  let batch_results := autoLoopGo env pending st.localCursor window 0
  { processed := st.processed ++ batch_results
    appCursor := batch_end
    localCursor := st.localCursor
    batchCount := st.batchCount + 1
    done := decide (total ≤ batch_end) }

/-- Fuel-indexed run of the auto-continue `while` loop: each unit of
fuel allows one more iteration; the loop exits when its condition
`localCursor < total` fails or the completion break fires. -/
def auto_continue_run (env : StepEnv) (pending : List String) :
    Nat → AutoState → AutoState
  | 0, st => st
  | n + 1, st =>
      if st.done then st
      else if st.localCursor < pending.length then
        auto_continue_run env pending n (autoBody env pending st)
      else
        { st with done := true }

/-! ## The `/progress` SSE generator (`src/app.py` lines 65-117) -/

/-- The progress dictionary `app.current_progress`, with the fields the
pipeline writes.  The generator compares whole copies for change
detection, so the structure carries decidable equality. -/
structure Snapshot where
  status : String
  message : String
  current_question : ℤ
  total_questions : ℤ
  current_row : ℤ
  detected_language : String
  confidence : ℤ
  translation : String
  processing_time : String
  api_response_time : String
deriving Repr, DecidableEq

/-- One server-sent event: either a copy of the progress dictionary or
the literal timeout payload (status `timeout` plus a reconnect
message) emitted when the 15-second cap fires. -/
inductive SSEvent where
  | snap (p : Snapshot)
  | timeoutMsg
deriving Repr, DecidableEq

/-- The `status` field of an emitted event. -/
def SSEvent.status : SSEvent → String
  | .snap p => p.status
  | .timeoutMsg => "timeout"

/-- Generator state.  `elapsed` is wall-clock time since stream start
in tenths of a second: every non-terminating loop iteration costs the
`time.sleep(0.2)` at the bottom of the loop, so it adds 2.  `last` is
`last_progress`, `emitted` the events yielded so far, `halted` whether
a `break` has run. -/
structure SSState where
  elapsed : Nat
  last : Option Snapshot
  emitted : List SSEvent
  halted : Bool
deriving Repr, DecidableEq

/-- One iteration of the `while True` loop of `progress_stream`
(`src/app.py` lines 72-105).  The environment maps the elapsed time to
the current value of `app.current_progress` (`none` when the attribute
does not exist).  Checks, in source order: the 15 s cap (elapsed > 150
tenths); attribute presence; emit when the copy differs from
`last_progress` or elapsed > 0.5 s; break after emitting a
`completed`/`error` status. -/
def progress_stream_iter (env : Nat → Option Snapshot) (st : SSState) : SSState :=
  if 150 < st.elapsed then
    { st with emitted := st.emitted ++ [SSEvent.timeoutMsg], halted := true }
  else
    match env st.elapsed with
    | some p =>
        if st.last ≠ some p ∨ 5 < st.elapsed then
          if p.status = "completed" ∨ p.status = "error" then
            { st with emitted := st.emitted ++ [SSEvent.snap p], last := some p,
                      halted := true }
          else
            { elapsed := st.elapsed + 2, last := some p,
              emitted := st.emitted ++ [SSEvent.snap p], halted := false }
        else
          { st with elapsed := st.elapsed + 2 }
    | none => { st with elapsed := st.elapsed + 2 }

/-- Fuel-indexed run of the generator loop; a halted state is final. -/
def progress_stream_run (env : Nat → Option Snapshot) : Nat → SSState → SSState
  | 0, st => st
  | n + 1, st =>
      if st.halted then st
      else progress_stream_run env n (progress_stream_iter env st)

/-- Generator state at stream start. -/
def sseStart : SSState :=
  { elapsed := 0, last := none, emitted := [], halted := false }

/-! ## Concrete environments used by the example runs -/

/-- A fully successful `process_question` environment. -/
def okPQ : PQEnv :=
  { test_mode := false
    api_key := some "k"
    lang_call := .ok (some { language := some "English", confidence := some (.rint 95) })
    trans_call := .ok "Hello" }

/-- A test-mode environment (`TEST_MODE=true`). -/
def tmPQ : PQEnv :=
  { test_mode := true, api_key := none, lang_call := .ok none, trans_call := .ok "x" }

/-- An environment with no API key configured. -/
def noKeyPQ : PQEnv :=
  { test_mode := false, api_key := none, lang_call := .ok none, trans_call := .ok "x" }

/-- A step environment in which the budget never runs out and every
item goes through `process_question` successfully. -/
def allOkStep : StepEnv :=
  { tcheck := fun _ => false
    proc := fun q n r => Except.ok (process_question okPQ q n (some r)) }

/-- A step environment whose budget is found exhausted from window
item 1 on. -/
def lateTimeoutStep : StepEnv :=
  { tcheck := fun i => decide (1 ≤ i)
    proc := allOkStep.proc }

/-- A step environment in which the client call on question text "b"
raises. -/
def failBStep : StepEnv :=
  { tcheck := fun _ => false
    proc := fun q n r =>
      if q == "b" then Except.error "boom"
      else Except.ok (process_question okPQ q n (some r)) }

/-- Sheet column with a duplicated question text. -/
def dupCol : List (Option String) := [some "a", some "b", some "a"]

/-- Live batch over the duplicated column, cursor at 0. -/
def dupState : BatchState :=
  { pending := ["a", "b", "a"], results := [], cursorStart := 0 }

/-- Sheet column with three distinct question texts. -/
def abcCol : List (Option String) := [some "a", some "b", some "c"]

/-- Live batch over the three distinct questions, cursor at 0. -/
def abcState : BatchState :=
  { pending := ["a", "b", "c"], results := [], cursorStart := 0 }

/-- Four pending questions: strictly more than one chunk of work. -/
def fourQs : List String := ["q1", "q2", "q3", "q4"]

/-- The auto-continue entry state: fresh local read of the cursor. -/
def autoStart : AutoState :=
  { processed := [], appCursor := 0, localCursor := 0, batchCount := 0, done := false }

/-! ## Helper lemmas -/

theorem getLast_append_singleton {α : Type} (l : List α) (a : α) :
    (l ++ [a]).getLast? = some a := by
  induction l with
  | nil => rfl
  | cons b t ih => rw [List.cons_append, List.getLast?_cons, ih]; rfl

theorem filterMap_id_replicate_some {α : Type} (n : Nat) (a : α) :
    (List.replicate n (some a)).filterMap id = List.replicate n a := by
  induction n with
  | zero => rfl
  | succ m ih => simp [List.replicate_succ, ih]

/-- Every chunk-step loop appends exactly one result per window item,
whether the budget fires or not. -/
theorem stepLoop_length (env : StepEnv) (col : List (Option String))
    (pending : List String) (cursor : Nat) :
    ∀ (window : List String) (i : Nat),
      (stepLoop env col pending cursor window i).length = window.length := by
  intro window
  induction window with
  | nil => intro i; simp [stepLoop]
  | cons q rest ih =>
      intro i
      cases htc : env.tcheck i with
      | true => simp [stepLoop, htc, pendingFill]
      | false => simp [stepLoop, htc, ih]

/-- Window length in terms of the batch state. -/
theorem chunkWindow_length (st : BatchState) :
    (chunkWindow st).length = min chunk_size (st.pending.length - st.cursorStart) := by
  simp [chunkWindow]

/-- If the budget check first fires at window index `i + d`, the loop
output from relative position `d` on is exactly the pending back-fill
over the remaining window slots. -/
theorem stepLoop_timeout_drop (env : StepEnv) (col : List (Option String))
    (pending : List String) (cursor : Nat) :
    ∀ (window : List String) (i d : Nat),
      (∀ k, k < d → env.tcheck (i + k) = false) →
      env.tcheck (i + d) = true → d < window.length →
      (stepLoop env col pending cursor window i).drop d
        = pendingFill col pending cursor (i + d) (window.length - d) := by
  intro window
  induction window with
  | nil => intro i d _ _ hd; simp at hd
  | cons q rest ih =>
      intro i d hk ht hd
      cases d with
      | zero =>
          have ht0 : env.tcheck i = true := by simpa using ht
          simp [stepLoop, ht0]
      | succ e =>
          have h0 : env.tcheck i = false := by simpa using hk 0 (Nat.succ_pos e)
          rw [stepLoop, if_neg (by simp [h0]), List.drop_succ_cons]
          have hk2 : ∀ k, k < e → env.tcheck (i + 1 + k) = false := by
            intro k hke
            have := hk (k + 1) (by omega)
            simpa [Nat.add_assoc, Nat.add_comm 1 k] using this
          have ht2 : env.tcheck (i + 1 + e) = true := by
            have h3 : i + 1 + e = i + (e + 1) := by omega
            rw [h3]; exact ht
          have hd2 : e < rest.length := by simpa using Nat.lt_of_succ_lt_succ hd
          rw [ih (i + 1) e hk2 ht2 hd2]
          have h4 : i + 1 + e = i + (e + 1) := by omega
          have h5 : rest.length - e = rest.length + 1 - (e + 1) := by omega
          rw [h4, h5]
          simp

/-- If the budget never fires on the window, the loop output at
position `j` is exactly the per-item try/except result for item `j`. -/
theorem stepLoop_noTimeout_getD (env : StepEnv) (col : List (Option String))
    (pending : List String) (cursor : Nat) :
    ∀ (window : List String) (i : Nat),
      (∀ k, k < window.length → env.tcheck (i + k) = false) →
      ∀ j, j < window.length →
        (stepLoop env col pending cursor window i).getD j default
          = procResult env col cursor (i + j) (window.getD j "") := by
  intro window
  induction window with
  | nil => intro i _ j hj; simp at hj
  | cons q rest ih =>
      intro i hnt j hj
      have h0 : env.tcheck i = false := by simpa using hnt 0 (by simp)
      rw [stepLoop, if_neg (by simp [h0])]
      cases j with
      | zero => simp
      | succ m =>
          rw [List.getD_cons_succ, List.getD_cons_succ]
          have hnt2 : ∀ k, k < rest.length → env.tcheck (i + 1 + k) = false := by
            intro k hk
            have := hnt (k + 1) (by simpa using Nat.succ_lt_succ hk)
            simpa [Nat.add_assoc, Nat.add_comm 1 k] using this
          have hm : m < rest.length := by simpa using Nat.lt_of_succ_lt_succ hj
          rw [ih (i + 1) hnt2 m hm]
          have h4 : i + 1 + m = i + (m + 1) := by omega
          rw [h4]

/-- A halted generator state is final for any fuel. -/
theorem progress_stream_run_halted (env : Nat → Option Snapshot) :
    ∀ (n : Nat) (st : SSState), st.halted = true →
      progress_stream_run env n st = st := by
  intro n
  induction n with
  | zero => intro st _; rfl
  | succ m _ => intro st h; rw [progress_stream_run, if_pos h]

/-- Every non-final generator iteration either halts or advances the
clock by exactly one `time.sleep(0.2)`. -/
theorem progress_stream_iter_shape (env : Nat → Option Snapshot) (st : SSState)
    (h : st.halted = false) :
    (progress_stream_iter env st).halted = true ∨
    ((progress_stream_iter env st).halted = false ∧
      (progress_stream_iter env st).elapsed = st.elapsed + 2) := by
  rw [progress_stream_iter]
  by_cases h150 : 150 < st.elapsed
  · rw [if_pos h150]; left; rfl
  · rw [if_neg h150]
    cases henv : env st.elapsed with
    | none => right; exact ⟨h, rfl⟩
    | some p =>
        dsimp only
        by_cases hemit : st.last ≠ some p ∨ 5 < st.elapsed
        · rw [if_pos hemit]
          by_cases hterm : p.status = "completed" ∨ p.status = "error"
          · rw [if_pos hterm]; left; rfl
          · rw [if_neg hterm]; right; exact ⟨rfl, rfl⟩
        · rw [if_neg hemit]; right; exact ⟨h, rfl⟩

/-- When a non-final iteration halts, the event it appended last is
either the timeout payload or a snapshot with a terminal status. -/
theorem progress_stream_iter_good (env : Nat → Option Snapshot) (st : SSState)
    (h : st.halted = false) (H : (progress_stream_iter env st).halted = true) :
    (progress_stream_iter env st).emitted.getLast? = some SSEvent.timeoutMsg ∨
    ∃ p, (progress_stream_iter env st).emitted.getLast? = some (SSEvent.snap p) ∧
      (p.status = "completed" ∨ p.status = "error") := by
  rw [progress_stream_iter] at H ⊢
  by_cases h150 : 150 < st.elapsed
  · rw [if_pos h150] at H ⊢
    left
    exact getLast_append_singleton st.emitted SSEvent.timeoutMsg
  · rw [if_neg h150] at H ⊢
    cases henv : env st.elapsed with
    | none =>
        rw [henv] at H
        dsimp only at H
        exact absurd H (by simp [h])
    | some p =>
        rw [henv] at H
        dsimp only at H ⊢
        by_cases hemit : st.last ≠ some p ∨ 5 < st.elapsed
        · rw [if_pos hemit] at H ⊢
          by_cases hterm : p.status = "completed" ∨ p.status = "error"
          · rw [if_pos hterm]
            right
            exact ⟨p, getLast_append_singleton st.emitted (SSEvent.snap p), hterm⟩
          · rw [if_neg hterm] at H
            exact absurd H (by simp)
        · rw [if_neg hemit] at H
          exact absurd H (by simp [h])

/-- Propagation of the terminal-event property along a full run. -/
theorem progress_stream_run_good (env : Nat → Option Snapshot) :
    ∀ (n : Nat) (st : SSState),
      (st.halted = true →
        st.emitted.getLast? = some SSEvent.timeoutMsg ∨
        ∃ p, st.emitted.getLast? = some (SSEvent.snap p) ∧
          (p.status = "completed" ∨ p.status = "error")) →
      (progress_stream_run env n st).halted = true →
      (progress_stream_run env n st).emitted.getLast? = some SSEvent.timeoutMsg ∨
      ∃ p, (progress_stream_run env n st).emitted.getLast? = some (SSEvent.snap p) ∧
        (p.status = "completed" ∨ p.status = "error") := by
  intro n
  induction n with
  | zero => intro st hst H; exact hst H
  | succ m ih =>
      intro st hst H
      by_cases h : st.halted = true
      · rw [progress_stream_run, if_pos h] at H ⊢
        exact hst H
      · have hf : st.halted = false := by
          cases hb : st.halted with
          | true => exact absurd hb h
          | false => rfl
        rw [progress_stream_run, if_neg h] at H ⊢
        exact ih (progress_stream_iter env st)
          (fun hh => progress_stream_iter_good env st hf hh) H

/-- With enough fuel the generator run always halts: every live
iteration pays 0.2 s, so the 15 s cap is reached. -/
theorem progress_stream_run_halts (env : Nat → Option Snapshot) :
    ∀ (n : Nat) (st : SSState), 150 < st.elapsed + 2 * n →
      (progress_stream_run env (n + 1) st).halted = true := by
  intro n
  induction n with
  | zero =>
      intro st hcap
      by_cases h : st.halted = true
      · rw [progress_stream_run, if_pos h]; exact h
      · rw [progress_stream_run, if_neg h, progress_stream_run]
        rw [progress_stream_iter, if_pos (by omega)]
  | succ m ih =>
      intro st hcap
      by_cases h : st.halted = true
      · rw [progress_stream_run, if_pos h]; exact h
      · have hf : st.halted = false := by
          cases hb : st.halted with
          | true => exact absurd hb h
          | false => rfl
        rw [progress_stream_run, if_neg h]
        rcases progress_stream_iter_shape env st hf with hh | ⟨_, he⟩
        · rw [progress_stream_run_halted env (m + 1) _ hh]; exact hh
        · exact ih (progress_stream_iter env st) (by omega)

/-- One auto-batch iteration over the four-question batch with the
local cursor at 0: the whole first chunk is processed, only the app
attribute moves to 3, the local cursor stays 0 and the completion
break does not fire. -/
theorem autoBody_fourQs (p : List QResult) (a k : Nat) (d : Bool) :
    autoBody allOkStep fourQs ⟨p, a, 0, k, d⟩
      = ⟨p ++ autoLoopGo allOkStep fourQs 0 ((fourQs.drop 0).take chunk_size) 0,
          3, 0, k + 1, false⟩ := by
  rfl

/-- The first chunk of the four-question batch holds three results. -/
theorem autoChunk_fourQs_length :
    (autoLoopGo allOkStep fourQs 0 ((fourQs.drop 0).take chunk_size) 0).length = 3 := by
  rfl

/-- Any number of auto-continue iterations over the four-question
batch leaves the local cursor at 0 and the loop alive, appending the
same three results once per iteration. -/
theorem auto_continue_stuck :
    ∀ (n : Nat) (st : AutoState), st.localCursor = 0 → st.done = false →
      (auto_continue_run allOkStep fourQs n st).done = false ∧
      (auto_continue_run allOkStep fourQs n st).localCursor = 0 ∧
      (auto_continue_run allOkStep fourQs n st).processed.length
          = st.processed.length + 3 * n := by
  intro n
  induction n with
  | zero => intro st h0 hd; exact ⟨hd, h0, by simp [auto_continue_run]⟩
  | succ m ih =>
      intro st h0 hd
      obtain ⟨p, a, l, k, d⟩ := st
      simp only at h0 hd
      subst h0
      subst hd
      have hc1 : ¬((⟨p, a, 0, k, false⟩ : AutoState).done = true) := by simp
      have hc2 : (⟨p, a, 0, k, false⟩ : AutoState).localCursor < fourQs.length := by
        show 0 < fourQs.length
        decide
      rw [auto_continue_run, if_neg hc1, if_pos hc2, autoBody_fourQs]
      obtain ⟨g1, g2, g3⟩ := ih
        (⟨p ++ autoLoopGo allOkStep fourQs 0 ((fourQs.drop 0).take chunk_size) 0,
          3, 0, k + 1, false⟩ : AutoState) rfl rfl
      refine ⟨g1, g2, ?_⟩
      rw [g3]
      show (p ++ autoLoopGo allOkStep fourQs 0 ((fourQs.drop 0).take chunk_size) 0).length
          + 3 * m = p.length + 3 * (m + 1)
      simp only [List.length_append, autoChunk_fourQs_length]
      omega

/-! ## Claim theorems -/

/-- C1: every chunk step that completes on a live batch preserves the
scheduler invariant — afterwards the accumulated results count equals
the cursor, the cursor has not decreased, and the cursor does not
exceed the number of items. -/
theorem chunk_step_invariant (env : StepEnv) (col : List (Option String))
    (st : BatchState)
    (h1 : st.results.length = st.cursorStart)
    (h2 : st.cursorStart ≤ st.pending.length) :
    (process_excel_file_chunk env col st).results.length
        = (process_excel_file_chunk env col st).cursorStart ∧
    st.cursorStart ≤ (process_excel_file_chunk env col st).cursorStart ∧
    (process_excel_file_chunk env col st).cursorStart ≤ st.pending.length := by
  have hw : (chunkAppended env col st).length = (chunkWindow st).length :=
    stepLoop_length env col st.pending st.cursorStart (chunkWindow st) 0
  have hwl : (chunkWindow st).length
      = min chunk_size (st.pending.length - st.cursorStart) := chunkWindow_length st
  refine ⟨?_, ?_, ?_⟩
  · simp only [process_excel_file_chunk, List.length_append, hw, hwl, h1, chunk_size]
    omega
  · simp only [process_excel_file_chunk, chunk_size]
    omega
  · simp only [process_excel_file_chunk, chunk_size]
    omega

/-- Witness for C1: the invariant hypotheses and conclusion at a
concrete live batch of three questions. -/
theorem chunk_step_invariant_witness :
    abcState.results.length = abcState.cursorStart ∧
    abcState.cursorStart ≤ abcState.pending.length ∧
    ((process_excel_file_chunk allOkStep abcCol abcState).results.length
        = (process_excel_file_chunk allOkStep abcCol abcState).cursorStart ∧
      abcState.cursorStart ≤ (process_excel_file_chunk allOkStep abcCol abcState).cursorStart ∧
      (process_excel_file_chunk allOkStep abcCol abcState).cursorStart
        ≤ abcState.pending.length) :=
  ⟨rfl, by decide, chunk_step_invariant allOkStep abcCol abcState rfl (by decide)⟩

/-- C2: when the 25 s budget is found exhausted just before window item
`d`, the step appends every remaining window slot as a
`Pending (timeout)` result, appends one result per window item in
total, and still advances the cursor to
`min(cursor + chunk_size, len(items))`. -/
theorem chunk_step_timeout_backfill (env : StepEnv) (col : List (Option String))
    (st : BatchState) (d : Nat)
    (hk : ∀ k, k < d → env.tcheck k = false)
    (ht : env.tcheck d = true)
    (hd : d < (chunkWindow st).length) :
    (chunkAppended env col st).length = (chunkWindow st).length ∧
    (chunkAppended env col st).drop d
        = pendingFill col st.pending st.cursorStart d ((chunkWindow st).length - d) ∧
    (∀ r ∈ (chunkAppended env col st).drop d,
        r.detected_language = "Pending (timeout)") ∧
    (process_excel_file_chunk env col st).cursorStart
        = min (st.cursorStart + chunk_size) st.pending.length := by
  have hlen : (chunkAppended env col st).length = (chunkWindow st).length :=
    stepLoop_length env col st.pending st.cursorStart (chunkWindow st) 0
  have hdrop : (chunkAppended env col st).drop d
      = pendingFill col st.pending st.cursorStart d ((chunkWindow st).length - d) := by
    have h := stepLoop_timeout_drop env col st.pending st.cursorStart (chunkWindow st) 0 d
      (fun k hkk => by simpa using hk k hkk) (by simpa using ht) hd
    simpa [chunkAppended] using h
  refine ⟨hlen, hdrop, ?_, by simp [process_excel_file_chunk]⟩
  intro r hr
  rw [hdrop] at hr
  simp only [pendingFill, List.mem_map, List.mem_range] at hr
  obtain ⟨t, _, rfl⟩ := hr
  rfl

/-- Witness for C2: the budget dies before item 1 of a 3-item chunk;
items 1 and 2 become `Pending (timeout)` and the cursor advances by 3. -/
theorem chunk_step_timeout_backfill_witness :
    (∀ k, k < 1 → lateTimeoutStep.tcheck k = false) ∧
    lateTimeoutStep.tcheck 1 = true ∧
    1 < (chunkWindow abcState).length ∧
    ((chunkAppended lateTimeoutStep abcCol abcState).length
        = (chunkWindow abcState).length ∧
      (chunkAppended lateTimeoutStep abcCol abcState).drop 1
        = pendingFill abcCol abcState.pending abcState.cursorStart 1
            ((chunkWindow abcState).length - 1) ∧
      (∀ r ∈ (chunkAppended lateTimeoutStep abcCol abcState).drop 1,
          r.detected_language = "Pending (timeout)") ∧
      (process_excel_file_chunk lateTimeoutStep abcCol abcState).cursorStart
        = min (abcState.cursorStart + chunk_size) abcState.pending.length) :=
  ⟨by decide, by decide, by decide,
    chunk_step_timeout_backfill lateTimeoutStep abcCol abcState 1
      (by decide) (by decide) (by decide)⟩

/-- C3: if the client call raises on window item `j` (and the budget
never fires), the step appends the `Error` dictionary carrying the
failure message for that item, still appends exactly one result per
window item — every other item keeping its own per-item outcome — and
advances the cursor fully, so neither the chunk nor the batch is
aborted. -/
theorem chunk_step_item_failure_isolated (env : StepEnv) (col : List (Option String))
    (st : BatchState) (j : Nat) (msg : String)
    (hnt : ∀ k, k < (chunkWindow st).length → env.tcheck k = false)
    (hj : j < (chunkWindow st).length)
    (herr : env.proc ((chunkWindow st).getD j "") (st.cursorStart + j + 1)
        (findRow col ((chunkWindow st).getD j "") (st.cursorStart + j + 1))
        = Except.error msg) :
    (chunkAppended env col st).length = (chunkWindow st).length ∧
    (chunkAppended env col st).getD j default
        = mkSchedError ((chunkWindow st).getD j "") (st.cursorStart + j + 1)
            (findRow col ((chunkWindow st).getD j "") (st.cursorStart + j + 1)) msg ∧
    (∀ k, k < (chunkWindow st).length →
        (chunkAppended env col st).getD k default
          = procResult env col st.cursorStart k ((chunkWindow st).getD k "")) ∧
    (process_excel_file_chunk env col st).cursorStart
        = min (st.cursorStart + chunk_size) st.pending.length := by
  have hall : ∀ k, k < (chunkWindow st).length →
      (chunkAppended env col st).getD k default
        = procResult env col st.cursorStart k ((chunkWindow st).getD k "") := by
    intro k hkw
    have h := stepLoop_noTimeout_getD env col st.pending st.cursorStart (chunkWindow st) 0
      (fun k2 hk2 => by simpa using hnt k2 hk2) k hkw
    simpa [chunkAppended] using h
  refine ⟨stepLoop_length env col st.pending st.cursorStart (chunkWindow st) 0, ?_, hall,
    by simp [process_excel_file_chunk]⟩
  rw [hall j hj]
  simp only [procResult]
  rw [herr]

/-- Witness for C3: the client raises on item 1 ("b") of a 3-item
chunk; the step still yields 3 results with item 1 an `Error`. -/
theorem chunk_step_item_failure_isolated_witness :
    (∀ k, k < (chunkWindow abcState).length → failBStep.tcheck k = false) ∧
    1 < (chunkWindow abcState).length ∧
    failBStep.proc ((chunkWindow abcState).getD 1 "") (abcState.cursorStart + 1 + 1)
        (findRow abcCol ((chunkWindow abcState).getD 1 "") (abcState.cursorStart + 1 + 1))
      = Except.error "boom" ∧
    ((chunkAppended failBStep abcCol abcState).length = (chunkWindow abcState).length ∧
      (chunkAppended failBStep abcCol abcState).getD 1 default
        = mkSchedError ((chunkWindow abcState).getD 1 "") (abcState.cursorStart + 1 + 1)
            (findRow abcCol ((chunkWindow abcState).getD 1 "")
              (abcState.cursorStart + 1 + 1)) "boom" ∧
      (∀ k, k < (chunkWindow abcState).length →
          (chunkAppended failBStep abcCol abcState).getD k default
            = procResult failBStep abcCol abcState.cursorStart k
                ((chunkWindow abcState).getD k "")) ∧
      (process_excel_file_chunk failBStep abcCol abcState).cursorStart
        = min (abcState.cursorStart + chunk_size) abcState.pending.length) :=
  ⟨by decide, by decide, by rfl,
    chunk_step_item_failure_isolated failBStep abcCol abcState 1 "boom"
      (by decide) (by decide) (by rfl)⟩

/-- C4 counterexample: a raw integer confidence of 150 is normalized
to 150, so the normalized confidence is not always inside [0, 100]. -/
theorem confidence_range_counterexample :
    ¬ (0 ≤ normalize_confidence (RawConf.rint 150) ∧
        normalize_confidence (RawConf.rint 150) ≤ 100) := by
  decide

/-- C4 (amended): normalization multiplies a float raw value `<= 1.0`
by 100 and truncates, and truncates any other raw value directly; for
float raw values inside [0, 1] the result does land in [0, 100]
(raw 0.87 normalizes to 87, raw 87 normalizes to 87), but raw values
outside that range pass through unclamped. -/
theorem normalize_confidence_amended (q : ℚ) (h0 : 0 ≤ q) (h1 : q ≤ 1) :
    (0 ≤ normalize_confidence (RawConf.rfloat q) ∧
      normalize_confidence (RawConf.rfloat q) ≤ 100) ∧
    normalize_confidence (RawConf.rfloat (87 / 100)) = 87 ∧
    normalize_confidence (RawConf.rint 87) = 87 := by
  have hm0 : (0 : ℚ) ≤ q * 100 := by positivity
  have hred : normalize_confidence (RawConf.rfloat q) = ⌊q * 100⌋ := by
    simp only [normalize_confidence, if_pos h1, ratTrunc, if_pos hm0]
  refine ⟨⟨?_, ?_⟩, ?_, rfl⟩
  · rw [hred]
    exact Int.floor_nonneg.mpr hm0
  · rw [hred]
    have hle : q * 100 ≤ 100 := by nlinarith
    have hfl : ⌊q * 100⌋ ≤ ⌊(100 : ℚ)⌋ := Int.floor_le_floor hle
    simpa using hfl
  · norm_num [normalize_confidence, ratTrunc]

/-- Witness for C4 at the concrete fraction 1/2. -/
theorem normalize_confidence_amended_witness :
    (0 ≤ (1 / 2 : ℚ)) ∧ ((1 / 2 : ℚ) ≤ 1) ∧
    ((0 ≤ normalize_confidence (RawConf.rfloat (1 / 2)) ∧
        normalize_confidence (RawConf.rfloat (1 / 2)) ≤ 100) ∧
      normalize_confidence (RawConf.rfloat (87 / 100)) = 87 ∧
      normalize_confidence (RawConf.rint 87) = 87) :=
  ⟨by norm_num, by norm_num,
    normalize_confidence_amended (1 / 2) (by norm_num) (by norm_num)⟩

/-- C5 fails on the code: with the question text "a" duplicated at
source rows 1 and 3, a fully drained batch ends with row_number
sequence [1, 2, 1] — the value-equality lookup binds the second
occurrence of "a" to the first matching row — instead of the 1-based
source positions [1, 2, 3], and the sequence is not non-decreasing. -/
theorem duplicate_text_row_misbinding :
    (process_excel_file_chunk allOkStep dupCol dupState).cursorStart
        = dupState.pending.length ∧
    (process_excel_file_chunk allOkStep dupCol dupState).results.map
        (fun r => r.row_number) = [some 1, some 2, some 1] ∧
    ¬ ((process_excel_file_chunk allOkStep dupCol dupState).results.map
        (fun r => r.row_number) = [some 1, some 2, some 3]) := by
  refine ⟨by decide, by decide, by decide⟩

/-- C6: starting a batch with an empty extracted question list fails
with the validation error and no batch state is produced; starting
with more than MAX_QUESTIONS (1000) questions fails with the size
validation error before any item is attempted. -/
theorem start_batch_validation (col1 col2 : List (Option String))
    (h1 : col1.filterMap id = [])
    (h2 : MAX_QUESTIONS < (col2.filterMap id).length) :
    start_batch col1 MAX_QUESTIONS
        = Except.error "No questions found in the Excel file" ∧
    (∀ st : BatchState, start_batch col1 MAX_QUESTIONS ≠ Except.ok st) ∧
    start_batch col2 MAX_QUESTIONS
        = Except.error ("Maximum " ++ toString MAX_QUESTIONS ++ " questions allowed per file") ∧
    (∀ st : BatchState, start_batch col2 MAX_QUESTIONS ≠ Except.ok st) := by
  have hne : (col2.filterMap id).isEmpty = false := by
    cases hcc : col2.filterMap id with
    | nil => rw [hcc] at h2; simp at h2
    | cons x xs => rfl
  have e1 : start_batch col1 MAX_QUESTIONS
      = Except.error "No questions found in the Excel file" := by
    simp only [start_batch, h1]
    rfl
  have e2 : start_batch col2 MAX_QUESTIONS
      = Except.error ("Maximum " ++ toString MAX_QUESTIONS ++ " questions allowed per file") := by
    simp only [start_batch]
    rw [if_neg (by simp [hne]), if_pos h2]
  refine ⟨e1, ?_, e2, ?_⟩
  · intro st hok
    rw [e1] at hok
    exact Except.noConfusion hok
  · intro st hok
    rw [e2] at hok
    exact Except.noConfusion hok

/-- Witness for C6: the empty sheet and a 1001-question sheet. -/
theorem start_batch_validation_witness :
    (([] : List (Option String)).filterMap id = []) ∧
    (MAX_QUESTIONS < ((List.replicate 1001 (some "q")).filterMap id).length) ∧
    (start_batch ([] : List (Option String)) MAX_QUESTIONS
        = Except.error "No questions found in the Excel file" ∧
      (∀ st : BatchState,
          start_batch ([] : List (Option String)) MAX_QUESTIONS ≠ Except.ok st) ∧
      start_batch (List.replicate 1001 (some "q")) MAX_QUESTIONS
        = Except.error ("Maximum " ++ toString MAX_QUESTIONS ++ " questions allowed per file") ∧
      (∀ st : BatchState,
          start_batch (List.replicate 1001 (some "q")) MAX_QUESTIONS ≠ Except.ok st)) :=
  ⟨rfl,
    by rw [filterMap_id_replicate_some, List.length_replicate]; norm_num [MAX_QUESTIONS],
    start_batch_validation ([] : List (Option String)) (List.replicate 1001 (some "q")) rfl
      (by rw [filterMap_id_replicate_some, List.length_replicate]
          norm_num [MAX_QUESTIONS])⟩

/-- C7 fails on the code: the auto-continue loop reads the cursor into
a local variable once and never reassigns it (only the app attribute is
updated), and its 25 s timer restarts inside every iteration, so with
four pending questions whose items all succeed instantly the loop
neither completes nor stops on any aggregate budget for any number of
iterations — the local cursor stays 0 and the first chunk of three
results is re-appended every time. -/
theorem auto_continue_never_terminates (n : Nat) :
    (auto_continue_run allOkStep fourQs n autoStart).done = false ∧
    (auto_continue_run allOkStep fourQs n autoStart).localCursor = 0 ∧
    (auto_continue_run allOkStep fourQs n autoStart).processed.length = 3 * n := by
  have h := auto_continue_stuck n autoStart rfl rfl
  simpa [autoStart] using h

/-- C8 fails on the code: in test mode `process_question` returns
before the `row_number` key is attached, so the test-mode ItemResult
carries no row number even though one was supplied, while the very
same call outside test mode does carry it (question number and
original text are present in both). -/
theorem test_mode_omits_row_number :
    (process_question tmPQ "hola" 1 (some 1)).row_number = none ∧
    (process_question okPQ "hola" 1 (some 1)).row_number = some 1 ∧
    (process_question tmPQ "hola" 1 (some 1)).question_number = 1 ∧
    (process_question tmPQ "hola" 1 (some 1)).original_question = "hola" := by
  refine ⟨by decide, by decide, by decide, by decide⟩

/-- C9: with fuel covering the 15 s cap (77 iterations of at least
0.2 s each) the progress stream always halts, and the last emitted
event is either the timeout payload, whose status is "timeout", or a
snapshot whose status is "completed" or "error". -/
theorem progress_stream_terminates (env : Nat → Option Snapshot) :
    (progress_stream_run env 77 sseStart).halted = true ∧
    (((progress_stream_run env 77 sseStart).emitted.getLast?
          = some SSEvent.timeoutMsg ∧
        SSEvent.timeoutMsg.status = "timeout") ∨
      ∃ p, (progress_stream_run env 77 sseStart).emitted.getLast?
          = some (SSEvent.snap p) ∧
        (p.status = "completed" ∨ p.status = "error")) := by
  have hh : (progress_stream_run env 77 sseStart).halted = true := by
    have h := progress_stream_run_halts env 76 sseStart (by norm_num [sseStart])
    simpa using h
  refine ⟨hh, ?_⟩
  have hg := progress_stream_run_good env 77 sseStart
    (by intro hcon; simp [sseStart] at hcon) hh
  rcases hg with h1 | h2
  · exact Or.inl ⟨h1, rfl⟩
  · exact Or.inr h2

/-- C10: `process_question` never lets a failure escape — whenever its
inner body raises, the returned dictionary is the Error result with
confidence 0 and the message embedded in the translation field, and
consequently the per-item handler of the scheduler can never observe a
raising call when it is fed by `process_question`. -/
theorem process_question_never_raises (env : PQEnv) (q : String) (qn : Nat)
    (rn : Option Nat) (e : String)
    (h : process_question_inner env q qn rn = Except.error e) :
    process_question env q qn rn = mkErrorResult q qn (rowAttach rn) e ∧
    (process_question env q qn rn).detected_language = "Error" ∧
    (process_question env q qn rn).confidence = 0 ∧
    (process_question env q qn rn).english_translation = "Translation error: " ++ e ∧
    (∀ (col : List (Option String)) (cursor i : Nat) (q2 : String),
        procResult
          { tcheck := fun _ => false
            proc := fun qq n r => Except.ok (process_question env qq n (some r)) }
          col cursor i q2
        = process_question env q2 (cursor + i + 1)
            (some (findRow col q2 (cursor + i + 1)))) := by
  have hp : process_question env q qn rn = mkErrorResult q qn (rowAttach rn) e := by
    simp [process_question, h]
  refine ⟨hp, by rw [hp]; rfl, by rw [hp]; rfl, by rw [hp]; rfl, ?_⟩
  intro col cursor i q2
  simp [procResult]

/-- Witness for C10: a call with no API key configured raises inside
the body and returns the Error dictionary. -/
theorem process_question_never_raises_witness :
    process_question_inner noKeyPQ "hi" 1 (some 2)
        = Except.error "DeepSeek API key not configured" ∧
    (process_question noKeyPQ "hi" 1 (some 2)
        = mkErrorResult "hi" 1 (rowAttach (some 2)) "DeepSeek API key not configured" ∧
      (process_question noKeyPQ "hi" 1 (some 2)).detected_language = "Error" ∧
      (process_question noKeyPQ "hi" 1 (some 2)).confidence = 0 ∧
      (process_question noKeyPQ "hi" 1 (some 2)).english_translation
        = "Translation error: " ++ "DeepSeek API key not configured" ∧
      (∀ (col : List (Option String)) (cursor i : Nat) (q2 : String),
          procResult
            { tcheck := fun _ => false
              proc := fun qq n r => Except.ok (process_question noKeyPQ qq n (some r)) }
            col cursor i q2
          = process_question noKeyPQ q2 (cursor + i + 1)
              (some (findRow col q2 (cursor + i + 1))))) :=
  ⟨rfl, process_question_never_raises noKeyPQ "hi" 1 (some 2)
      "DeepSeek API key not configured" rfl⟩
